import Mathlib

/-!
Verification of the Seoul real-estate analysis pipeline (src/app.py).

The file shallowly embeds the data-processing core of the application:
the `load_and_process_data` function, which loads a long-format population
table, filters it to aggregate-gender rows, selects a year column, pivots
to one row per district, trims district names, computes youth estimates
from 5-year age brackets by substring-matched column sums, computes
population ratios, and inner-joins the result with two embedded reference
tables (price per area and academy counts).

Floating-point values are modelled as exact rationals; the distinction
that matters for the claims (finite versus non-finite results of a
division by zero) is captured by the small type `PVal`.
-/

namespace SeoulApp

/-- A pandas column label of the raw table.  A string-typed column stores
its text in `label` with `isInt = false`; an integer-typed column is
represented by its canonical decimal string in `label` with
`isInt = true` (so Python's str(c) is `label` for both, equality of two
integer columns is equality of their decimal strings, and int(s) of a
canonical year string s is the integer column labelled s). -/
structure ColLabel where
  label : String
  isInt : Bool
deriving DecidableEq

/-- One row of the raw long-format population table
(data/population_2023.xlsx): district name (행정구역(시군구)별),
gender (성별), age bracket (연령별), and the cells of the year columns.
A year column absent from `values` models a NaN cell. -/
structure RawRow where
  district : String
  gender : String
  age : String
  values : List (ColLabel × ℚ)
deriving DecidableEq

/-- The raw table: its column labels and its rows. -/
structure RawTable where
  cols : List ColLabel
  rows : List RawRow
deriving DecidableEq

/-- One row of the pivoted table (index = district, columns = age
brackets).  `entries` maps an age-bracket label to the population count;
an absent pair models a NaN cell, matching pandas' NaN-skipping row sums. -/
structure PivotRow where
  district : String
  entries : List (String × ℚ)
deriving DecidableEq

/-- One row of the final merged table (line 86-87 of app.py): the price
row's key and value, the pivoted population row, and the academy count. -/
structure MergedRow where
  region : String
  price : ℕ
  pop : PivotRow
  academy_count : ℕ
deriving DecidableEq

/-- PRICE_DATA_2024 (app.py lines 16-22): price per pyeong, in 만원. -/
def PRICE_DATA_2024 : List (String × ℕ) :=
  [("강남구", 8150), ("서초구", 7720), ("용산구", 6250), ("송파구", 5980), ("성동구", 5250),
   ("마포구", 4700), ("광진구", 4450), ("양천구", 4400), ("영등포구", 4150), ("강동구", 4100),
   ("동작구", 4000), ("중구", 3850), ("종로구", 3700), ("서대문구", 3500), ("동대문구", 3350),
   ("성북구", 3150), ("강서구", 3100), ("관악구", 3000), ("은평구", 2950), ("구로구", 2850),
   ("노원구", 2800), ("중랑구", 2650), ("강북구", 2600), ("금천구", 2550), ("도봉구", 2450)]

/-- ACADEMY_DATA (app.py lines 25-31): number of private academies. -/
def ACADEMY_DATA : List (String × ℕ) :=
  [("강남구", 2578), ("양천구", 1050), ("송파구", 1155), ("서초구", 1187), ("노원구", 739),
   ("강동구", 680), ("성북구", 550), ("마포구", 520), ("강서구", 600), ("은평구", 538),
   ("동작구", 450), ("영등포구", 430), ("서대문구", 370), ("광진구", 390), ("동대문구", 350),
   ("관악구", 380), ("성동구", 320), ("구로구", 340), ("중랑구", 300), ("도봉구", 290),
   ("강북구", 220), ("금천구", 200), ("용산구", 180), ("종로구", 230), ("중구", 150)]

/-- Whether the character list `ks` is an initial segment of `ls`. -/
def listIsPre : List Char → List Char → Bool
  | [], _ => true
  | _ :: _, [] => false
  | a :: ks, b :: ls => a == b && listIsPre ks ls

/-- Whether `ks` occurs as a contiguous segment of `ls`. -/
def listContainsSub : List Char → List Char → Bool
  | [], ks => listIsPre ks []
  | l@(_ :: t), ks => listIsPre ks l || listContainsSub t ks

/-- Python's substring containment `k in s` (used at app.py line 56). -/
def strContainsSub (s k : String) : Bool :=
  listContainsSub s.data k.data

/-- Python's str.strip(): drop leading and trailing whitespace
(app.py line 48, `.str.strip()`). -/
def pyStrip (s : String) : String :=
  ⟨((s.data.dropWhile Char.isWhitespace).reverse.dropWhile Char.isWhitespace).reverse⟩

/-- App.py line 42: keep only the aggregate-gender rows (성별 == 계). -/
def filterGender (rows : List RawRow) : List RawRow :=
  rows.filter fun r => r.gender == "계"

/-- App.py line 44: `target_year = '2024' if '2024' in [str(c) for c in
df_pop.columns] else '2023'`. -/
def target_year (cols : List ColLabel) : String :=
  if "2024" ∈ cols.map ColLabel.label then "2024" else "2023"

/-- App.py lines 45-47: if the selected year string is not itself a
column, coerce it with int() (yielding the integer column whose decimal
form is that string); the pivot then looks the values column up and
raises a KeyError when it is absent. -/
def selectCol (cols : List ColLabel) : Except String ColLabel :=
  let ty := target_year cols
  let c : ColLabel := if ColLabel.mk ty false ∈ cols then ⟨ty, false⟩ else ⟨ty, true⟩
  if c ∈ cols then .ok c else .error "KeyError: value column not found"

/-- App.py line 47: `df_pop.pivot(index='행정구역(시군구)별',
columns='연령별', values=target_year)`.  Pandas raises a ValueError when
an (index, column) pair is duplicated; otherwise the result has one row
per distinct district, whose entries are that district's (age, value)
cells (a missing cell is NaN, modelled by omitting the pair). -/
def pivotStep (rows : List RawRow) (target : ColLabel) : Except String (List PivotRow) :=
  if (rows.map fun r => (r.district, r.age)).Nodup then
    .ok ((rows.map RawRow.district).dedup.map fun d =>
      ⟨d, (rows.filter fun r => r.district == d).filterMap fun r =>
            (r.values.lookup target).map fun v => (r.age, v)⟩)
  else .error "ValueError: duplicate index entries"

/-- App.py line 48: `df_pivot.index = df_pivot.index.str.strip()`. -/
def stripRow (r : PivotRow) : PivotRow :=
  ⟨pyStrip r.district, r.entries⟩

/-- App.py lines 55-57 (`get_sum`): sum, for one pivoted row, the cells
of every column whose label contains one of the keywords as a substring
(pandas' row-wise sum skips NaN cells, i.e. absent entries). -/
def get_sum (r : PivotRow) (keyword_list : List String) : ℚ :=
  ((r.entries.filter fun e => keyword_list.any fun k => strContainsSub e.1 k).map Prod.snd).sum

/-- App.py line 70: `col_0_4 + (col_5_9 * 0.4)`. -/
def infant (r : PivotRow) : ℚ :=
  get_sum r ["0 - 4세"] + get_sum r ["5 - 9세"] * 0.4

/-- App.py line 71: `(col_5_9 * 0.6) + (col_10_14 * 0.6)`. -/
def elementary (r : PivotRow) : ℚ :=
  get_sum r ["5 - 9세"] * 0.6 + get_sum r ["10 - 14세"] * 0.6

/-- App.py line 72: `(col_10_14 * 0.4) + (col_15_19 * 0.8)`. -/
def adolescent (r : PivotRow) : ℚ :=
  get_sum r ["10 - 14세"] * 0.4 + get_sum r ["15 - 19세"] * 0.8

/-- App.py line 74: `df_pivot['계']` for one row; `none` models a NaN
cell. -/
def total_pop (r : PivotRow) : Option ℚ :=
  r.entries.lookup "계"

/-- An IEEE floating-point value abstracted to what the claims need:
either a finite value, modelled exactly as a rational, or a non-finite
value (inf, -inf or NaN). -/
inductive PVal where
  | fin : ℚ → PVal
  | nonfin : PVal
deriving DecidableEq

/-- Float addition at the finite/non-finite abstraction: a sum of finite
values is finite and exact; any sum with a non-finite operand is
non-finite. -/
def PVal.add : PVal → PVal → PVal
  | .fin a, .fin b => .fin (a + b)
  | _, _ => .nonfin

/-- App.py lines 77-79: `(estimate / total_pop) * 100`.  A NaN total
(absent cell) or a zero total makes the float result non-finite
(inf, -inf or NaN); float division raises no exception. -/
def ratio_of (est : ℚ) : Option ℚ → PVal
  | none => .nonfin
  | some t => if t = 0 then .nonfin else .fin (est / t * 100)

/-- App.py line 77. -/
def ratio_infant (r : PivotRow) : PVal :=
  ratio_of (infant r) (total_pop r)

/-- App.py line 78. -/
def ratio_elem (r : PivotRow) : PVal :=
  ratio_of (elementary r) (total_pop r)

/-- App.py line 79. -/
def ratio_adol (r : PivotRow) : PVal :=
  ratio_of (adolescent r) (total_pop r)

/-- App.py line 80: `ratio_infant + ratio_elem + ratio_adol`. -/
def ratio_total_youth (r : PivotRow) : PVal :=
  ((ratio_infant r).add (ratio_elem r)).add (ratio_adol r)

/-- Whether the pivoted table has a column labelled `c`: app.py line 74
raises a KeyError when no 계 column exists. -/
def hasCol (piv : List PivotRow) (c : String) : Bool :=
  piv.any fun r => r.entries.any fun e => e.1 == c

/-- App.py line 86: `pd.merge(df_price, df_pivot, left_on='region',
right_index=True, how='inner')` — every price row paired with every
pivot row of equal district key, in left-major order. -/
def merge1 (price : List (String × ℕ)) (piv : List PivotRow) :
    List (String × ℕ × PivotRow) :=
  price.flatMap fun p =>
    (piv.filter fun r => r.district == p.1).map fun r => (p.1, p.2, r)

/-- App.py line 87: `pd.merge(merged, df_academy, on='region',
how='inner')`. -/
def merge2 (m : List (String × ℕ × PivotRow)) (academy : List (String × ℕ)) :
    List MergedRow :=
  m.flatMap fun t =>
    (academy.filter fun a => a.1 == t.1).map fun a => ⟨t.1, t.2.1, t.2.2, a.2⟩

/-- App.py lines 48-89 applied to the pivoted table: strip the index,
fail when no 계 column exists (line 74), otherwise build the merged
table against the embedded reference tables.  The estimate and ratio
columns are recovered from the `pop` component by the functions above. -/
def processPivot (piv : List PivotRow) : Except String (List MergedRow) :=
  let piv2 := piv.map stripRow
  if hasCol piv2 "계" then
    .ok (merge2 (merge1 PRICE_DATA_2024 piv2) ACADEMY_DATA)
  else
    .error "KeyError: 계"

/-- The body of the try block (app.py lines 41-89); `load` is the
outcome of `pd.read_excel`, an error standing for an unreadable or
missing source file. -/
def pipelineBody (load : Except String RawTable) : Except String (List MergedRow) := do
  let input ← load
  let df_pop := filterGender input.rows
  let target ← selectCol input.cols
  let piv ← pivotStep df_pop target
  processPivot piv

/-- App.py lines 38-93: the try/except wrapper — any error inside the
body is caught, a diagnostic (the error string) is displayed, and an
empty DataFrame is returned. -/
def load_and_process_data (load : Except String RawTable) : List MergedRow :=
  match pipelineBody load with
  | .ok m => m
  | .error _ => []

/-- Number of rows of a merged table carrying the district name `d`. -/
def countRegion (l : List MergedRow) (d : String) : ℕ :=
  (l.filter fun m => m.region == d).length

/-- Column labels of a sample population source (the minimal scenario of
the specification, one aggregate-gender district). -/
def sampleCols : List ColLabel :=
  [⟨"행정구역(시군구)별", false⟩, ⟨"성별", false⟩, ⟨"연령별", false⟩, ⟨"2023", false⟩]

/-- Rows of the sample population source: district 강남구, aggregate
gender, the four 5-year brackets at 10000 each and a 계 total of
100000. -/
def sampleRows : List RawRow :=
  [⟨"강남구", "계", "계", [(⟨"2023", false⟩, 100000)]⟩,
   ⟨"강남구", "계", "0 - 4세", [(⟨"2023", false⟩, 10000)]⟩,
   ⟨"강남구", "계", "5 - 9세", [(⟨"2023", false⟩, 10000)]⟩,
   ⟨"강남구", "계", "10 - 14세", [(⟨"2023", false⟩, 10000)]⟩,
   ⟨"강남구", "계", "15 - 19세", [(⟨"2023", false⟩, 10000)]⟩]

/-- The sample source, loaded successfully. -/
def sampleLoad : Except String RawTable := .ok ⟨sampleCols, sampleRows⟩

/-- The single merged row the pipeline produces from `sampleLoad`. -/
def sampleMerged : MergedRow :=
  ⟨"강남구", 8150,
   ⟨"강남구", [("계", 100000), ("0 - 4세", 10000), ("5 - 9세", 10000),
               ("10 - 14세", 10000), ("15 - 19세", 10000)]⟩, 2578⟩

/-! ### Helper lemmas -/

/-- Summing the second components of the kept entries equals summing,
over all entries, the value guarded by the filter predicate. -/
theorem sum_map_filter_ite (p : String × ℚ → Bool) (l : List (String × ℚ)) :
    ((l.filter p).map Prod.snd).sum = (l.map fun e => if p e then e.2 else 0).sum := by
  induction l with
  | nil => rfl
  | cons x xs ih =>
    cases hx : p x <;> simp [List.filter_cons, hx, ih]

/-- A row none of whose labels matches any keyword contributes an empty
column set, whose sum is zero. -/
theorem get_sum_eq_zero (r : PivotRow) (ks : List String)
    (h : ∀ e ∈ r.entries, (ks.any fun k => strContainsSub e.1 k) = false) :
    get_sum r ks = 0 := by
  unfold get_sum
  rw [List.filter_eq_nil_iff.mpr fun e he => by simp [h e he]]
  rfl

/-- None of the hyphen-tight age labels contains one of the four
space-padded bracket keywords as a substring. -/
theorem no_match_tight (s k : String)
    (hs : s ∈ (["0-4세", "5-9세", "10-14세", "15-19세", "계"] : List String))
    (hk : k ∈ (["0 - 4세", "5 - 9세", "10 - 14세", "15 - 19세"] : List String)) :
    strContainsSub s k = false := by
  fin_cases hs <;> fin_cases hk <;> decide

/-- Filtering by a constant keeps everything or nothing. -/
theorem filter_const {α : Type} (b : Bool) (l : List α) :
    (l.filter fun _ => b) = if b then l else [] := by
  cases b <;> simp

/-- Row count of the first merge restricted to key `d`: the product of
the key-`d` row counts of its two operands. -/
theorem merge1_count (price : List (String × ℕ)) (piv : List PivotRow) (d : String) :
    ((merge1 price piv).filter fun t => t.1 == d).length =
      (price.filter fun x => x.1 == d).length *
        (piv.filter fun r => r.district == d).length := by
  induction price with
  | nil => simp [merge1]
  | cons x xs ih =>
    rw [show merge1 (x :: xs) piv =
          ((piv.filter fun r => r.district == x.1).map fun r => (x.1, x.2, r)) ++
            merge1 xs piv from by simp [merge1]]
    rw [List.filter_append, List.length_append, List.filter_map]
    rw [show ((fun t : String × ℕ × PivotRow => t.1 == d) ∘ fun r => (x.1, x.2, r)) =
          fun _ => x.1 == d from rfl]
    rw [filter_const, List.filter_cons]
    by_cases hxd : x.1 = d
    · simp [hxd, ih]
      ring
    · simp [hxd, ih, show (x.1 == d) = false from beq_eq_false_iff_ne.mpr hxd]

/-- Row count of the second merge restricted to key `d`: the product of
the key-`d` row counts of its two operands. -/
theorem merge2_count (m : List (String × ℕ × PivotRow)) (academy : List (String × ℕ))
    (d : String) :
    ((merge2 m academy).filter fun t => t.region == d).length =
      (m.filter fun t => t.1 == d).length *
        (academy.filter fun a => a.1 == d).length := by
  induction m with
  | nil => simp [merge2]
  | cons x xs ih =>
    rw [show merge2 (x :: xs) academy =
          ((academy.filter fun a => a.1 == x.1).map fun a => ⟨x.1, x.2.1, x.2.2, a.2⟩) ++
            merge2 xs academy from by simp [merge2]]
    rw [List.filter_append, List.length_append, List.filter_map]
    rw [show ((fun t : MergedRow => t.region == d) ∘
          fun a : String × ℕ => (⟨x.1, x.2.1, x.2.2, a.2⟩ : MergedRow)) =
          fun _ => x.1 == d from rfl]
    rw [filter_const, List.filter_cons]
    by_cases hxd : x.1 = d
    · simp [hxd, ih]
      ring
    · simp [hxd, ih, show (x.1 == d) = false from beq_eq_false_iff_ne.mpr hxd]

/-- In a list with pairwise-distinct keys, exactly one element carries
key `d` when `d` occurs among the keys, none otherwise. -/
theorem count_key_nodup {α : Type} (key : α → String) (l : List α) (d : String)
    (h : (l.map key).Nodup) :
    (l.filter fun x => key x == d).length = if d ∈ l.map key then 1 else 0 := by
  induction l with
  | nil => simp
  | cons x xs ih =>
    rw [List.map_cons, List.nodup_cons] at h
    rw [List.filter_cons]
    by_cases hxd : key x = d
    · subst hxd
      have hnot : key x ∉ xs.map key := h.1
      simp [ih h.2, hnot]
    · simp [show (key x == d) = false from beq_eq_false_iff_ne.mpr hxd, ih h.2,
        List.mem_cons, hxd, Ne.symm hxd]

/-- A pivot row whose district key occurs in both reference tables
yields the corresponding row of the double inner join. -/
theorem mem_merges {price academy : List (String × ℕ)} {piv : List PivotRow}
    {d : String} {p a : ℕ} {r : PivotRow}
    (hp : (d, p) ∈ price) (hr : r ∈ piv) (hd : r.district = d) (ha : (d, a) ∈ academy) :
    (⟨d, p, r, a⟩ : MergedRow) ∈ merge2 (merge1 price piv) academy := by
  have h1 : (d, p, r) ∈ merge1 price piv := by
    unfold merge1
    refine List.mem_flatMap.mpr ⟨(d, p), hp, ?_⟩
    refine List.mem_map.mpr ⟨r, ?_, rfl⟩
    exact List.mem_filter.mpr ⟨hr, by simp [hd]⟩
  unfold merge2
  refine List.mem_flatMap.mpr ⟨(d, p, r), h1, ?_⟩
  refine List.mem_map.mpr ⟨(d, a), ?_, rfl⟩
  exact List.mem_filter.mpr ⟨ha, by simp⟩

/-! ### Claim theorems -/

/-- C1: for every district row of the pivoted population table, the
three youth estimates are computed with the fixed apportionment weights:
infant is the 0-4 bracket count plus 0.4 times the 5-9 bracket count,
elementary is 0.6 times the 5-9 count plus 0.6 times the 10-14 count,
adolescent is 0.4 times the 10-14 count plus 0.8 times the 15-19
count. -/
theorem C1_apportionment_weights (r : PivotRow) :
    infant r = get_sum r ["0 - 4세"] + 0.4 * get_sum r ["5 - 9세"] ∧
    elementary r = 0.6 * get_sum r ["5 - 9세"] + 0.6 * get_sum r ["10 - 14세"] ∧
    adolescent r = 0.4 * get_sum r ["10 - 14세"] + 0.8 * get_sum r ["15 - 19세"] := by
  refine ⟨?_, ?_, ?_⟩ <;> simp only [infant, elementary, adolescent] <;> ring

/-- C3: every error raised inside the pipeline body is caught at the
boundary — `load_and_process_data` is total, returns the body's table on
success, and returns the empty table on any error (the diagnostic being
the carried error string). -/
theorem C3_errors_caught (load : Except String RawTable) :
    (∃ m, pipelineBody load = Except.ok m ∧ load_and_process_data load = m) ∨
    (∃ e, pipelineBody load = Except.error e ∧ load_and_process_data load = []) := by
  cases h : pipelineBody load with
  | ok m => exact Or.inl ⟨m, rfl, by simp [load_and_process_data, h]⟩
  | error e => exact Or.inr ⟨e, rfl, by simp [load_and_process_data, h]⟩

/-- C5: for every district row of the merged output, ratio_total_youth
is exactly the (float) sum of ratio_infant, ratio_elem and ratio_adol,
each of which is the corresponding estimate divided by the total
population, times 100. -/
theorem C5_ratio_sum (load : Except String RawTable) (m : MergedRow)
    (_hm : m ∈ load_and_process_data load) :
    ratio_total_youth m.pop =
      ((ratio_infant m.pop).add (ratio_elem m.pop)).add (ratio_adol m.pop) ∧
    ratio_infant m.pop = ratio_of (infant m.pop) (total_pop m.pop) ∧
    ratio_elem m.pop = ratio_of (elementary m.pop) (total_pop m.pop) ∧
    ratio_adol m.pop = ratio_of (adolescent m.pop) (total_pop m.pop) :=
  ⟨rfl, rfl, rfl, rfl⟩

/-- Witness for C5 at the sample scenario. -/
theorem C5_ratio_sum_witness :
    ratio_total_youth sampleMerged.pop =
      ((ratio_infant sampleMerged.pop).add (ratio_elem sampleMerged.pop)).add
        (ratio_adol sampleMerged.pop) ∧
    ratio_infant sampleMerged.pop = ratio_of (infant sampleMerged.pop) (total_pop sampleMerged.pop) ∧
    ratio_elem sampleMerged.pop = ratio_of (elementary sampleMerged.pop) (total_pop sampleMerged.pop) ∧
    ratio_adol sampleMerged.pop = ratio_of (adolescent sampleMerged.pop) (total_pop sampleMerged.pop) :=
  C5_ratio_sum sampleLoad sampleMerged (by decide)

/-- C8: whenever the four source bracket counts of a district are
non-negative, the derived infant, elementary and adolescent estimates
are non-negative (all apportionment weights are non-negative). -/
theorem C8_estimates_nonneg (r : PivotRow)
    (h04 : 0 ≤ get_sum r ["0 - 4세"]) (h59 : 0 ≤ get_sum r ["5 - 9세"])
    (h1014 : 0 ≤ get_sum r ["10 - 14세"]) (h1519 : 0 ≤ get_sum r ["15 - 19세"]) :
    0 ≤ infant r ∧ 0 ≤ elementary r ∧ 0 ≤ adolescent r := by
  refine ⟨?_, ?_, ?_⟩
  · exact add_nonneg h04 (mul_nonneg h59 (by norm_num))
  · exact add_nonneg (mul_nonneg h59 (by norm_num)) (mul_nonneg h1014 (by norm_num))
  · exact add_nonneg (mul_nonneg h1014 (by norm_num)) (mul_nonneg h1519 (by norm_num))

/-- Witness for C8 at the sample district row. -/
theorem C8_estimates_nonneg_witness :
    0 ≤ infant sampleMerged.pop ∧ 0 ≤ elementary sampleMerged.pop ∧
    0 ≤ adolescent sampleMerged.pop := by
  refine C8_estimates_nonneg sampleMerged.pop ?_ ?_ ?_ ?_ <;>
    simp [get_sum, sampleMerged, strContainsSub, listContainsSub, listIsPre]

/-- C4: year-column selection — when a column stringifying to 2024 is
present it is selected; otherwise, when 2023 is present, 2023 is
selected and the values-column lookup succeeds; when neither is present
the lookup fails with the column-not-found error. -/
theorem C4_year_fallback (cols : List ColLabel) :
    ("2024" ∈ cols.map ColLabel.label → target_year cols = "2024") ∧
    ("2024" ∉ cols.map ColLabel.label → "2023" ∈ cols.map ColLabel.label →
      target_year cols = "2023" ∧
      ∃ c, selectCol cols = Except.ok c ∧ c.label = "2023") ∧
    ("2024" ∉ cols.map ColLabel.label → "2023" ∉ cols.map ColLabel.label →
      selectCol cols = Except.error "KeyError: value column not found") := by
  refine ⟨fun h24 => by simp [target_year, h24], fun h24 h23 => ?_, fun h24 h23 => ?_⟩
  · have hty : target_year cols = "2023" := by simp [target_year, h24]
    refine ⟨hty, ?_⟩
    by_cases hstr : ColLabel.mk "2023" false ∈ cols
    · exact ⟨⟨"2023", false⟩, by simp [selectCol, hty, hstr], rfl⟩
    · obtain ⟨c, hc, hcl⟩ := List.mem_map.mp h23
      cases c with
      | mk lab isInt =>
        simp only at hcl
        subst hcl
        cases isInt with
        | false => exact absurd hc hstr
        | true => exact ⟨⟨"2023", true⟩, by simp [selectCol, hty, hstr, hc], rfl⟩
  · have hty : target_year cols = "2023" := by simp [target_year, h24]
    have hstr : ColLabel.mk "2023" false ∉ cols := fun hmem =>
      h23 (List.mem_map.mpr ⟨_, hmem, rfl⟩)
    have hint : ColLabel.mk "2023" true ∉ cols := fun hmem =>
      h23 (List.mem_map.mpr ⟨_, hmem, rfl⟩)
    simp [selectCol, hty, hstr, hint]

/-- Column labels of a source providing only a 2023 year column. -/
def wcols2023 : List ColLabel := [⟨"연령별", false⟩, ⟨"2023", false⟩]

/-- Column labels of a source with no year column at all. -/
def wcolsNone : List ColLabel := [⟨"연령별", false⟩]

/-- Witness for C4: the fallback selects 2023, and without any year
column the lookup errors. -/
theorem C4_year_fallback_witness :
    (target_year wcols2023 = "2023" ∧
      ∃ c, selectCol wcols2023 = Except.ok c ∧ c.label = "2023") ∧
    selectCol wcolsNone = Except.error "KeyError: value column not found" :=
  ⟨(C4_year_fallback wcols2023).2.1 (by decide) (by decide),
   (C4_year_fallback wcolsNone).2.2 (by decide) (by decide)⟩

/-- C6: for each of the four required 5-year brackets, the bracket count
is the sum, over the row's columns, of the cells whose label contains
the bracket keyword as a substring; with no matching column the count is
the empty sum 0, and the pipeline still succeeds (its only failure point
past the pivot is a missing 계 column). -/
theorem C6_bracket_sum (r : PivotRow) (k : String)
    (_hk : k ∈ (["0 - 4세", "5 - 9세", "10 - 14세", "15 - 19세"] : List String))
    (piv : List PivotRow) :
    get_sum r [k] =
      (r.entries.map fun e => if strContainsSub e.1 k then e.2 else 0).sum ∧
    ((∀ e ∈ r.entries, strContainsSub e.1 k = false) → get_sum r [k] = 0) ∧
    (hasCol (piv.map stripRow) "계" = true → ∃ out, processPivot piv = Except.ok out) := by
  refine ⟨?_, fun h => get_sum_eq_zero r [k] fun e he => by simp [h e he], fun hc => ?_⟩
  · unfold get_sum
    rw [sum_map_filter_ite]
    simp
  · exact ⟨merge2 (merge1 PRICE_DATA_2024 (piv.map stripRow)) ACADEMY_DATA,
      by simp [processPivot, hc]⟩

/-- A pivoted row whose age labels are hyphen-tight, so no bracket
keyword matches. -/
def wrowC6 : PivotRow := ⟨"강서구", [("0-4세", 123), ("계", 10)]⟩

/-- Witness for C6 at a row with no matching 0 - 4세 column. -/
theorem C6_bracket_sum_witness :
    get_sum wrowC6 ["0 - 4세"] =
      (wrowC6.entries.map fun e => if strContainsSub e.1 "0 - 4세" then e.2 else 0).sum ∧
    get_sum wrowC6 ["0 - 4세"] = 0 ∧
    ∃ out, processPivot [wrowC6] = Except.ok out :=
  ⟨(C6_bracket_sum wrowC6 "0 - 4세" (by decide) [wrowC6]).1,
   (C6_bracket_sum wrowC6 "0 - 4세" (by decide) [wrowC6]).2.1 (by decide),
   (C6_bracket_sum wrowC6 "0 - 4세" (by decide) [wrowC6]).2.2 (by decide)⟩

/-- C10: the bracket keywords are the space-padded literals, so a row
whose age labels use hyphen-tight spacing matches no keyword: every
bracket count is 0 and all three youth estimates collapse to 0,
whatever the actual cell values are. -/
theorem C10_keyword_spacing (r : PivotRow)
    (h : ∀ e ∈ r.entries, e.1 ∈ (["0-4세", "5-9세", "10-14세", "15-19세", "계"] : List String)) :
    get_sum r ["0 - 4세"] = 0 ∧ get_sum r ["5 - 9세"] = 0 ∧
    get_sum r ["10 - 14세"] = 0 ∧ get_sum r ["15 - 19세"] = 0 ∧
    infant r = 0 ∧ elementary r = 0 ∧ adolescent r = 0 := by
  have hz : ∀ kw ∈ (["0 - 4세", "5 - 9세", "10 - 14세", "15 - 19세"] : List String),
      get_sum r [kw] = 0 := by
    intro kw hkw
    exact get_sum_eq_zero r [kw] fun e he => by simp [no_match_tight e.1 kw (h e he) hkw]
  have h1 := hz "0 - 4세" (by simp)
  have h2 := hz "5 - 9세" (by simp)
  have h3 := hz "10 - 14세" (by simp)
  have h4 := hz "15 - 19세" (by simp)
  refine ⟨h1, h2, h3, h4, ?_, ?_, ?_⟩ <;>
    simp [infant, elementary, adolescent, h1, h2, h3, h4]

/-- A hyphen-tight row with large counts in every bracket. -/
def wrowC10 : PivotRow :=
  ⟨"강동구", [("0-4세", 9999), ("5-9세", 8888), ("10-14세", 777), ("15-19세", 66), ("계", 100)]⟩

/-- Witness for C10: all youth estimates of the hyphen-tight row are 0
although its cells are not. -/
theorem C10_keyword_spacing_witness :
    get_sum wrowC10 ["0 - 4세"] = 0 ∧ get_sum wrowC10 ["5 - 9세"] = 0 ∧
    get_sum wrowC10 ["10 - 14세"] = 0 ∧ get_sum wrowC10 ["15 - 19세"] = 0 ∧
    infant wrowC10 = 0 ∧ elementary wrowC10 = 0 ∧ adolescent wrowC10 = 0 :=
  C10_keyword_spacing wrowC10 (by decide)

/-- C2: with key-unique sources (the two reference tables are built from
dicts and the pivoted table has one row per district), the double inner
join contains exactly one row per district name in the intersection of
the three district-name sets, and zero rows for any other name — in
particular a district present in the population source but absent from
the price table does not appear. -/
theorem C2_inner_join (price academy : List (String × ℕ)) (piv : List PivotRow) (d : String)
    (hp : (price.map Prod.fst).Nodup)
    (hv : (piv.map PivotRow.district).Nodup)
    (ha : (academy.map Prod.fst).Nodup) :
    countRegion (merge2 (merge1 price piv) academy) d =
      if d ∈ price.map Prod.fst ∧ d ∈ piv.map PivotRow.district ∧ d ∈ academy.map Prod.fst
      then 1 else 0 := by
  unfold countRegion
  rw [merge2_count, merge1_count]
  rw [count_key_nodup Prod.fst price d hp]
  rw [count_key_nodup PivotRow.district piv d hv]
  rw [count_key_nodup Prod.fst academy d ha]
  by_cases h1 : d ∈ price.map Prod.fst <;> by_cases h2 : d ∈ piv.map PivotRow.district <;>
    by_cases h3 : d ∈ academy.map Prod.fst <;> simp [h1, h2, h3]

/-- A one-district price table. -/
def wprice : List (String × ℕ) := [("가구", 100)]

/-- A pivoted table with a district (나구) missing from the price
table. -/
def wpivC2 : List PivotRow := [⟨"가구", [("계", 10)]⟩, ⟨"나구", [("계", 20)]⟩]

/-- An academy table covering both districts. -/
def wacad : List (String × ℕ) := [("가구", 5), ("나구", 7)]

/-- Witness for C2: the district present in the population source but
absent from the price table has no row in the merged output. -/
theorem C2_inner_join_witness :
    countRegion (merge2 (merge1 wprice wpivC2) wacad) "나구" = 0 := by
  rw [C2_inner_join wprice wacad wpivC2 "나구" (by decide) (by decide) (by decide)]
  decide

/-- C9: the pipeline trims surrounding whitespace from every
district-name key of the pivoted table before the joins, so a district
whose source label carries surrounding spaces still joins with both
reference tables under its trimmed name. -/
theorem C9_strip_before_join (piv : List PivotRow) (r : PivotRow) (d : String) (p a : ℕ)
    (hr : r ∈ piv) (hd : pyStrip r.district = d)
    (hp : (d, p) ∈ PRICE_DATA_2024) (ha : (d, a) ∈ ACADEMY_DATA)
    (hc : hasCol (piv.map stripRow) "계" = true) :
    ((piv.map stripRow).map PivotRow.district = piv.map fun x => pyStrip x.district) ∧
    ∃ out, processPivot piv = Except.ok out ∧ (⟨d, p, stripRow r, a⟩ : MergedRow) ∈ out := by
  refine ⟨by simp [stripRow], ?_⟩
  refine ⟨merge2 (merge1 PRICE_DATA_2024 (piv.map stripRow)) ACADEMY_DATA,
    by simp [processPivot, hc], ?_⟩
  exact mem_merges hp (List.mem_map.mpr ⟨r, hr, rfl⟩) (by simp [stripRow, hd]) ha

/-- A pivoted table whose single district label carries surrounding
spaces. -/
def wpivC9 : List PivotRow := [⟨" 강남구 ", [("계", 500000)]⟩]

/-- Witness for C9: the space-padded 강남구 row joins with both
reference tables under its trimmed name. -/
theorem C9_strip_before_join_witness :
    ((wpivC9.map stripRow).map PivotRow.district = wpivC9.map fun x => pyStrip x.district) ∧
    ∃ out, processPivot wpivC9 = Except.ok out ∧
      (⟨"강남구", 8150, stripRow ⟨" 강남구 ", [("계", 500000)]⟩, 2578⟩ : MergedRow) ∈ out :=
  C9_strip_before_join wpivC9 ⟨" 강남구 ", [("계", 500000)]⟩ "강남구" 8150 2578
    (by decide) (by decide) (by decide) (by decide) (by decide)

/-- C7: a district whose aggregate 계 total is zero does not make the
ratio computation raise — its four ratio fields are the non-finite float
value, and its row still appears in the merged output rather than being
dropped. -/
theorem C7_zero_total_pop (piv : List PivotRow) (r : PivotRow) (d : String) (p a : ℕ)
    (hr : r ∈ piv) (hd : pyStrip r.district = d)
    (hp : (d, p) ∈ PRICE_DATA_2024) (ha : (d, a) ∈ ACADEMY_DATA)
    (hc : hasCol (piv.map stripRow) "계" = true)
    (ht : r.entries.lookup "계" = some 0) :
    ∃ out, processPivot piv = Except.ok out ∧
      ∃ m ∈ out, m.region = d ∧ m.pop = stripRow r ∧
        ratio_infant m.pop = PVal.nonfin ∧ ratio_elem m.pop = PVal.nonfin ∧
        ratio_adol m.pop = PVal.nonfin ∧ ratio_total_youth m.pop = PVal.nonfin := by
  have htot : total_pop (stripRow r) = some 0 := by simpa [total_pop, stripRow] using ht
  refine ⟨merge2 (merge1 PRICE_DATA_2024 (piv.map stripRow)) ACADEMY_DATA,
    by simp [processPivot, hc], ⟨d, p, stripRow r, a⟩,
    mem_merges hp (List.mem_map.mpr ⟨r, hr, rfl⟩) (by simp [stripRow, hd]) ha,
    rfl, rfl, ?_, ?_, ?_, ?_⟩ <;>
    simp [ratio_infant, ratio_elem, ratio_adol, ratio_total_youth, ratio_of, htot, PVal.add]

/-- A district row whose 계 total is zero. -/
def wrowC7 : PivotRow := ⟨"강남구", [("계", 0), ("0 - 4세", 100)]⟩

/-- Witness for C7: the zero-total district is present in the output
with non-finite ratio fields. -/
theorem C7_zero_total_pop_witness :
    ∃ out, processPivot [wrowC7] = Except.ok out ∧
      ∃ m ∈ out, m.region = "강남구" ∧ m.pop = stripRow wrowC7 ∧
        ratio_infant m.pop = PVal.nonfin ∧ ratio_elem m.pop = PVal.nonfin ∧
        ratio_adol m.pop = PVal.nonfin ∧ ratio_total_youth m.pop = PVal.nonfin :=
  C7_zero_total_pop [wrowC7] wrowC7 "강남구" 8150 2578
    (by decide) (by decide) (by decide) (by decide) (by decide) (by decide)

end SeoulApp
